import Mathlib

/-!
# ToxiGuard — verification of the violation-scoring and enforcement pipeline

Shallow embedding of the moderation pipeline of the ToxiGuard Telegram bot:
the Violation Scorer (`src/services/analyzer.py`), the Rule Filter and the
Enforcement Engine (`src/bot/handlers.py`), and the data model persisted by
`src/data/manager.py`.  Scores are embedded as rationals (the Python code
computes with real-valued arithmetic on `float`s), machine state as explicit
records, and the external world (classifier service, Telegram API calls) as an
environment of call outcomes plus an ordered trace of emitted effects.
-/

namespace ToxiGuard

/-! ## Violation Scorer — `OpenAIAnalyzer._calculate_violation_score` -/

/-- Embeds `OpenAIAnalyzer._calculate_violation_score` (analyzer.py lines
52-59): each sub-score is divided by 100 and clamped into `[0,1]`, the base is
the maximum of the three normalized scores, half of the remaining mass is added
on top, and the result is capped at `1.0` and rescaled to `[0,100]`. -/
def calculateViolationScore (spam toxic danger : ℚ) : ℚ :=
  let spam_norm := min (max (spam / 100) 0) 1
  let toxic_norm := min (max (toxic / 100) 0) 1
  let danger_norm := min (max (danger / 100) 0) 1
  let base_score := max (max toxic_norm danger_norm) spam_norm
  let additional_impact := (1/2 : ℚ) * (toxic_norm + danger_norm + spam_norm - base_score)
  min (base_score + additional_impact) 1 * 100

/-- Embeds the threshold computation of `analyze_message` (analyzer.py line
84): `(1.01 - sensitivity/100) * 100`, with the sensitivity setting a natural
number. -/
def sensitivityThreshold (sensitivity : ℕ) : ℚ :=
  (101/100 - (sensitivity : ℚ) / 100) * 100

/-- The JSON object returned by the classifier call, as read by
`analyze_message`: three numeric sub-scores, a reason string, and the
`violation_score` / `violation` fields the model may also emit (the prompt
asks for them, and `analyze_message` overwrites both). -/
structure ClassifierResponse where
  spam : ℚ
  toxic : ℚ
  danger : ℚ
  violation_score : Option ℚ
  violation : Option Bool
  reason : String
deriving Repr, DecidableEq

/-- The result dictionary produced by the analysis pipeline. -/
structure ViolationResult where
  spam : ℚ
  toxic : ℚ
  danger : ℚ
  violation_score : ℚ
  violation : Bool
  reason : String
deriving Repr, DecidableEq

/-- The safe default returned by `analyze_message` when anything in its `try`
block raises (analyzer.py lines 89-95). -/
def analysisErrorResult : ViolationResult :=
  { spam := 0, toxic := 0, danger := 0,
    violation_score := 0, violation := false,
    reason := "Ошибка анализа" }

/-- Embeds `OpenAIAnalyzer.analyze_message` (analyzer.py lines 61-95).  The
classifier call together with the JSON parse and the key accesses is the
`outcome` argument: `Except.error` is any exception raised inside the `try`
block, `Except.ok` a successfully parsed response.  On success the
`violation_score` and `violation` fields of the response are discarded:
`violation_score` is recomputed by `_calculate_violation_score` and `violation`
by comparison against the sensitivity threshold. -/
def analyzeMessage (sensitivity : ℕ)
    (outcome : Except String ClassifierResponse) : ViolationResult :=
  match outcome with
  | .error _ => analysisErrorResult
  | .ok r =>
    let score := calculateViolationScore r.spam r.toxic r.danger
    { spam := r.spam, toxic := r.toxic, danger := r.danger,
      violation_score := score,
      violation := decide (score ≥ sensitivityThreshold sensitivity),
      reason := r.reason }

/-- The Violation Scorer as the specification words it (spec §4.3), for
comparison with the code-derived definitions: returns
`(composite, threshold, verdict)`. -/
def specScorer (spam toxic danger : ℚ) (sensitivity : ℕ) : ℚ × ℚ × Bool :=
  let spam_n := min (max (spam / 100) 0) 1
  let toxic_n := min (max (toxic / 100) 0) 1
  let danger_n := min (max (danger / 100) 0) 1
  let base := max spam_n (max toxic_n danger_n)
  let extra := (1/2 : ℚ) * (spam_n + toxic_n + danger_n - base)
  let composite := min (base + extra) 1 * 100
  let threshold := (101/100 - (sensitivity : ℚ) / 100) * 100
  (composite, threshold, decide (composite ≥ threshold))

/-! ## Rule Filter — `Handlers._check_ban_words` -/

/-- Substring test on character lists: `infixOf needle hay` is `true` exactly
when `needle` occurs contiguously inside `hay` (the meaning of Python's
`needle in hay` for strings). -/
def infixOf (needle : List Char) : List Char → Bool
  | [] => needle.isEmpty
  | c :: rest => needle.isPrefixOf (c :: rest) || infixOf needle rest

/-- Python's `s.lower()` on the characters of a string (the handlers only
lower-case before a substring test, so the character list is the natural
codomain). -/
def lowerChars (s : String) : List Char := s.toList.map Char.toLower

/-- Embeds `Handlers._check_ban_words` (handlers.py lines 197-199):
`any(word in text.lower() for word in ban_words)`.  Note that only the text is
lower-cased, not the stored word. -/
def checkBanWords (banWords : List String) (text : String) : Bool :=
  banWords.any (fun word => infixOf word.toList (lowerChars text))

/-- The Rule Filter as the specification words it (spec §4.1): a fully
case-insensitive substring test, lower-casing both the text and the ban word. -/
def specCheckBanWordsCI (banWords : List String) (text : String) : Bool :=
  banWords.any (fun word => infixOf (word.toList.map Char.toLower) (lowerChars text))

/-- Embeds `Handlers._create_ban_word_violation` (handlers.py lines 201-207):
the fixed synthesized result used whenever the Rule Filter triggers. -/
def banWordViolation : ViolationResult :=
  { spam := 90, toxic := 40, danger := 70,
    violation_score := 90, violation := true,
    reason := "Запрещенное слово" }

/-! ## Data model — `DataManager` (manager.py) -/

/-- The `settings` object of `DataManager`. -/
structure Settings where
  sensitivity : ℕ
  ban_words : List String
  auto_delete : Bool
  warn_before_ban : ℕ
deriving Repr, DecidableEq

/-- One per-user record of `DataManager.users`. -/
structure UserRecord where
  username : String
  first_name : String
  last_name : String
  warnings : ℕ
  messages : ℕ
deriving Repr, DecidableEq

/-- The `stats` object of `DataManager`. -/
structure Stats where
  messages_checked : ℕ
  violations_found : ℕ
  deleted_messages : ℕ
  banned_users : ℕ
deriving Repr, DecidableEq

/-- The in-memory state held by `DataManager`: settings, the user table
(a dictionary keyed by the stringified user id, embedded as an association
list) and the global statistics. -/
structure DataManager where
  settings : Settings
  users : List (String × UserRecord)
  stats : Stats
deriving Repr, DecidableEq

/-- Embeds `DataManager._default_data` (manager.py lines 17-32). -/
def defaultData : DataManager :=
  { settings :=
      { sensitivity := 70,
        ban_words := ["реклама", "купить", "http://", "telegram.me", "оскорбление"],
        auto_delete := true,
        warn_before_ban := 3 },
    users := [],
    stats :=
      { messages_checked := 0, violations_found := 0,
        deleted_messages := 0, banned_users := 0 } }

/-- In-place update of the record stored under `uid`
(Python `self.data_manager.users[uid][...] = ...`). -/
def updateUser (users : List (String × UserRecord)) (uid : String)
    (f : UserRecord → UserRecord) : List (String × UserRecord) :=
  users.map (fun p => if p.1 == uid then (p.1, f p.2) else p)

/-! ## Incoming Telegram data and the external environment -/

/-- The fields of a Telegram user that the handlers read. -/
structure TgUser where
  id : ℕ
  is_bot : Bool
  username : String
  first_name : String
  last_name : String
deriving Repr, DecidableEq

/-- The fields of a Telegram message that the handlers read; `text` is `none`
when the message carries no text and may be the empty string (both are falsy
in the Python guard). -/
structure TgMessage where
  text : Option String
  from_user : TgUser
  chat_id : ℤ
  message_id : ℕ
deriving Repr, DecidableEq

/-- An incoming update: `message` is `none` when the update carries no
message object. -/
structure TgUpdate where
  message : Option TgMessage
deriving Repr, DecidableEq

/-- Outcomes of the external calls a single `handle_message` run can make:
the classifier response (or the exception its call raises), and whether each
Telegram API call succeeds or raises — the warning send, the message delete,
the deletion-failed annotation edit, the ban call and the ban announcement. -/
structure Env where
  classifier : String → Except String ClassifierResponse
  sendOk : Bool
  deleteOk : Bool
  editOk : Bool
  banOk : Bool
  banAnnounceOk : Bool

/-- The structured content of the warning notification built by
`Handlers._send_warning` (handlers.py lines 224-241): reason, composite score,
the three sub-scores, and the `N/M` warning progress indicator. -/
structure WarningContent where
  reason : String
  violation_score : ℚ
  spam : ℚ
  toxic : ℚ
  danger : ℚ
  warn_count : ℕ
  warn_before_ban : ℕ
deriving Repr, DecidableEq

/-- The observable external calls the pipeline makes, in order. -/
inductive Effect where
  | classify (text : String)
  | sendWarning (chat_id : ℤ) (content : WarningContent) (reply_to : ℕ)
  | deleteMessage (chat_id : ℤ) (message_id : ℕ)
  | editWarningDeleteFailed
  | banChatMember (chat_id : ℤ) (user_id : ℕ)
  | sendMessage (chat_id : ℤ) (text : String)
  | saveData
  | replyError
deriving Repr, DecidableEq

/-! ## Enforcement Engine — `Handlers._process_violation` and helpers -/

/-- Embeds `Handlers._delete_violation_message` (handlers.py lines 243-254):
try to delete the offending message; on success increment `deleted_messages`,
on failure swallow the delete exception and append a visible annotation to the
already-sent warning message via `edit_text`.  The annotation edit is an
external call with no surrounding `try` of its own, so when it raises the
exception propagates to the caller: the `Bool` in the result is the raised
flag. -/
def deleteViolationMessage (env : Env) (dm : DataManager)
    (chat_id : ℤ) (message_id : ℕ) : DataManager × List Effect × Bool :=
  if env.deleteOk then
    ({ dm with stats := { dm.stats with
         deleted_messages := dm.stats.deleted_messages + 1 } },
     [Effect.deleteMessage chat_id message_id], false)
  else
    (dm, [Effect.deleteMessage chat_id message_id, Effect.editWarningDeleteFailed],
     !env.editOk)

/-- The ban announcement text of `Handlers._ban_user`. -/
def banAnnouncement (username : String) : String :=
  "🚫 Пользователь @" ++ username ++ " забанен за повторные нарушения!"

/-- Embeds `Handlers._ban_user` (handlers.py lines 256-268): ban the user,
increment `banned_users`, announce the ban; any exception is logged and
re-raised (the `Bool` in the result is the raised flag). -/
def banUser (env : Env) (dm : DataManager) (chat_id : ℤ) (user : TgUser) :
    DataManager × List Effect × Bool :=
  if env.banOk then
    ({ dm with stats := { dm.stats with
         banned_users := dm.stats.banned_users + 1 } },
     [Effect.banChatMember chat_id user.id,
      Effect.sendMessage chat_id (banAnnouncement user.username)],
     !env.banAnnounceOk)
  else
    (dm, [Effect.banChatMember chat_id user.id], true)

/-- Embeds `Handlers._process_violation` (handlers.py lines 209-222):
increment `violations_found` and the user's warning counter, send the warning
(reading the post-increment counter), optionally delete the message, and ban
once the post-increment counter reaches `warn_before_ban`.  A raise escaping
the delete step (the annotation edit failing) skips the ban check.  The
`Bool` in the result is the raised flag: `true` when an exception escapes to
the caller. -/
def processViolation (env : Env) (dm : DataManager) (user : TgUser)
    (chat_id : ℤ) (message_id : ℕ) (violation : ViolationResult) :
    DataManager × List Effect × Bool :=
  let uid := toString user.id
  let dm1 : DataManager :=
    { dm with
      stats := { dm.stats with violations_found := dm.stats.violations_found + 1 },
      users := updateUser dm.users uid (fun u => { u with warnings := u.warnings + 1 }) }
  let warnCount := ((dm1.users.lookup uid).map UserRecord.warnings).getD 0
  let warnEff := Effect.sendWarning chat_id
    { reason := violation.reason, violation_score := violation.violation_score,
      spam := violation.spam, toxic := violation.toxic, danger := violation.danger,
      warn_count := warnCount, warn_before_ban := dm1.settings.warn_before_ban }
    message_id
  if env.sendOk then
    let dmE := if dm1.settings.auto_delete
               then deleteViolationMessage env dm1 chat_id message_id
               else (dm1, [], false)
    if dmE.2.2 then
      (dmE.1, warnEff :: dmE.2.1, true)
    else if warnCount ≥ dmE.1.settings.warn_before_ban then
      let dmB := banUser env dmE.1 chat_id user
      (dmB.1, warnEff :: dmE.2.1 ++ dmB.2.1, dmB.2.2)
    else
      (dmE.1, warnEff :: dmE.2.1, false)
  else (dm1, [warnEff], true)

/-! ## Moderation Orchestrator — `Handlers.handle_message` -/

/-- Embeds `Handlers._init_user_data` (handlers.py lines 183-191). -/
def initUserRecord (user : TgUser) : UserRecord :=
  { username := user.username, first_name := user.first_name,
    last_name := user.last_name, warnings := 0, messages := 0 }

/-- The violation result `handle_message` uses for a text (handlers.py lines
170-173): the fixed ban-word result when the Rule Filter triggers, otherwise
the analyzer's result; the second component records the classifier call. -/
def chooseViolation (env : Env) (dm : DataManager) (text : String) :
    ViolationResult × List Effect :=
  if checkBanWords dm.settings.ban_words text then
    (banWordViolation, [])
  else
    (analyzeMessage dm.settings.sensitivity (env.classifier text),
     [Effect.classify text])

/-- Lazy user creation plus the per-message counter updates of
`handle_message` (handlers.py lines 164-168): create the record on first
sighting, increment the user's message count and `messages_checked`. -/
def registerMessage (dm : DataManager) (user : TgUser) : DataManager :=
  let uid := toString user.id
  let dm1 := if (dm.users.lookup uid).isSome then dm
             else { dm with users := dm.users ++ [(uid, initUserRecord user)] }
  let dm2 := { dm1 with
    users := updateUser dm1.users uid (fun u => { u with messages := u.messages + 1 }) }
  { dm2 with
    stats := { dm2.stats with messages_checked := dm2.stats.messages_checked + 1 } }

/-- The violation dispatch of `handle_message` (handlers.py lines 175-178):
process the violation when the chosen result says so, then `save_data` unless
something raised. -/
def processFound (env : Env) (dm : DataManager) (user : TgUser)
    (chat_id : ℤ) (message_id : ℕ) (chosen : ViolationResult × List Effect) :
    DataManager × List Effect × Bool :=
  if chosen.1.violation then
    if (processViolation env dm user chat_id message_id chosen.1).2.2 then
      ((processViolation env dm user chat_id message_id chosen.1).1,
       chosen.2 ++ (processViolation env dm user chat_id message_id chosen.1).2.1,
       true)
    else
      ((processViolation env dm user chat_id message_id chosen.1).1,
       chosen.2 ++ (processViolation env dm user chat_id message_id chosen.1).2.1
         ++ [Effect.saveData],
       false)
  else (dm, chosen.2 ++ [Effect.saveData], false)

/-- The body of `Handlers.handle_message`'s `try` block (handlers.py lines
146-178): guard clauses, lazy user creation, counter updates, rule filter /
classifier dispatch, violation processing, and the final `save_data`.  The
`Bool` in the result is the raised flag of the body. -/
def handleMessageBody (env : Env) (dm : DataManager) (upd : TgUpdate) :
    DataManager × List Effect × Bool :=
  match upd.message with
  | none => (dm, [], false)
  | some msg =>
    match msg.text with
    | none => (dm, [], false)
    | some text =>
      if text = "" then (dm, [], false)
      else if msg.from_user.is_bot then (dm, [], false)
      else
        let user := msg.from_user
        let dm3 := registerMessage dm user
        processFound env dm3 user msg.chat_id msg.message_id
          (chooseViolation env dm3 text)

/-- Embeds `Handlers.handle_message` (handlers.py lines 144-181): the `try`
body, plus the top-level `except` that logs and replies with a generic error
notice when the update still has a message. -/
def handleMessage (env : Env) (dm : DataManager) (upd : TgUpdate) :
    DataManager × List Effect :=
  let res := handleMessageBody env dm upd
  if res.2.2 then
    (res.1, if upd.message.isSome then res.2.1 ++ [Effect.replyError] else res.2.1)
  else (res.1, res.2.1)

/-- One incoming update together with the outcomes of the external calls its
processing makes. -/
structure Incoming where
  env : Env
  upd : TgUpdate

/-- Processing a sequence of incoming updates, threading the data-manager
state. -/
def runMessages (dm : DataManager) : List Incoming → DataManager
  | [] => dm
  | i :: rest => runMessages (handleMessage i.env dm i.upd).1 rest

/-! ## Concrete fixtures used to instantiate the theorems -/

/-- An environment where every external call succeeds and the classifier is
unreachable (its outcome is irrelevant for the ban-word path). -/
def envW : Env :=
  { classifier := fun _ => Except.error "network unreachable",
    sendOk := true, deleteOk := true, editOk := true,
    banOk := true, banAnnounceOk := true }

/-- An environment where deleting the offending message fails but the
annotation edit succeeds. -/
def envDelFail : Env := { envW with deleteOk := false }

/-- An environment where deleting the offending message fails and the
deletion-failed annotation edit also fails. -/
def envEditFail : Env := { envW with deleteOk := false, editOk := false }

/-- An environment where the ban call fails. -/
def envBanFail : Env := { envW with banOk := false }

/-- A concrete classifier response. -/
def respW : ClassifierResponse :=
  { spam := 10, toxic := 20, danger := 5,
    violation_score := none, violation := none, reason := "rude" }

/-- A concrete non-bot user. -/
def userW : TgUser :=
  { id := 7, is_bot := false, username := "alice",
    first_name := "Alice", last_name := "L" }

/-- A concrete stored record for `userW` with one prior warning. -/
def recW : UserRecord :=
  { username := "alice", first_name := "Alice", last_name := "L",
    warnings := 1, messages := 4 }

/-- Default data with `userW` already known. -/
def dmW : DataManager := { defaultData with users := [("7", recW)] }

/-- A record for `userW` one warning short of the default ban threshold. -/
def recB : UserRecord := { recW with warnings := 2 }

/-- Default data where `userW` is one warning short of the ban threshold. -/
def dmB : DataManager := { defaultData with users := [("7", recB)] }

/-- Default data with the single ban word `"cheap"`. -/
def dmCheap : DataManager :=
  { defaultData with settings := { defaultData.settings with ban_words := ["cheap"] } }

/-! ## Helper lemmas -/

theorem lookup_updateUser (users : List (String × UserRecord)) (uid : String)
    (f : UserRecord → UserRecord) :
    (updateUser users uid f).lookup uid = (users.lookup uid).map f := by
  induction users with
  | nil => rfl
  | cons p rest ih =>
    simp only [updateUser, List.map_cons] at ih ⊢
    cases hb : (p.1 == uid)
    · have hb' : (uid == p.1) = false := by
        rw [beq_eq_false_iff_ne] at hb ⊢
        exact fun h => hb h.symm
      simp [List.lookup, hb, hb']
      simpa using ih
    · have he : p.1 = uid := eq_of_beq hb
      subst he
      simp [List.lookup, hb]

/-! ## C1 — the Violation Scorer formula -/

/-- C1: for all real-valued sub-scores and every sensitivity in 1..100, the
scorer computes exactly the normalize-clamp / max / half-remainder / cap
composite, the threshold `(1.01 - s/100) * 100`, and the verdict
`composite ≥ threshold`, as `specScorer` words it from the spec. -/
theorem scorer_matches_spec (r : ClassifierResponse) (s : ℕ)
    (h1 : 1 ≤ s) (h2 : s ≤ 100) :
    (analyzeMessage s (.ok r)).violation_score = (specScorer r.spam r.toxic r.danger s).1
  ∧ sensitivityThreshold s = (specScorer r.spam r.toxic r.danger s).2.1
  ∧ (analyzeMessage s (.ok r)).violation = (specScorer r.spam r.toxic r.danger s).2.2 := by
  have hcomp : calculateViolationScore r.spam r.toxic r.danger
      = (specScorer r.spam r.toxic r.danger s).1 := by
    simp only [calculateViolationScore, specScorer]
    have hmax : max (max (min (max (r.toxic / 100) 0) 1) (min (max (r.danger / 100) 0) 1))
        (min (max (r.spam / 100) 0) 1)
        = max (min (max (r.spam / 100) 0) 1)
            (max (min (max (r.toxic / 100) 0) 1) (min (max (r.danger / 100) 0) 1)) :=
      max_comm _ _
    rw [hmax]
    ring_nf
  have hthr : sensitivityThreshold s = (specScorer r.spam r.toxic r.danger s).2.1 := by
    simp [sensitivityThreshold, specScorer]
  refine ⟨?_, hthr, ?_⟩
  · simpa [analyzeMessage] using hcomp
  · simp only [analyzeMessage, specScorer] at hcomp ⊢
    rw [hcomp, hthr]
    simp [specScorer]

/-- Witness for C1 at the spec's own example `(spam,toxic,danger) = (10,20,5)`
and sensitivity 50. -/
theorem scorer_matches_spec_witness :
    (1 ≤ 50 ∧ 50 ≤ 100)
  ∧ ((analyzeMessage 50 (.ok respW)).violation_score
        = (specScorer respW.spam respW.toxic respW.danger 50).1
    ∧ sensitivityThreshold 50 = (specScorer respW.spam respW.toxic respW.danger 50).2.1
    ∧ (analyzeMessage 50 (.ok respW)).violation
        = (specScorer respW.spam respW.toxic respW.danger 50).2.2) :=
  ⟨by norm_num, scorer_matches_spec respW 50 (by norm_num) (by norm_num)⟩

/-! ## C3 — fail-open on classifier errors -/

/-- C3: whenever anything inside `analyze_message`'s `try` block raises
(classifier call, JSON parse, key access, score computation), the exception is
not propagated: the function returns the safe default result with all
sub-scores 0, `violation_score = 0`, `violation = false` and the
analysis-error reason. -/
theorem analyze_message_fail_open (s : ℕ) (e : String) :
    analyzeMessage s (.error e) =
      { spam := 0, toxic := 0, danger := 0, violation_score := 0,
        violation := false, reason := "Ошибка анализа" } := rfl

/-! ## C7 — monotonicity in the sensitivity setting -/

/-- C7: with the three sub-scores held fixed, raising the sensitivity never
turns a violation into a non-violation: if the scorer says `violation = true`
at sensitivity `s1 ≤ s2` (both in 1..100) it also says so at `s2`. -/
theorem sensitivity_monotone (r : ClassifierResponse) (s1 s2 : ℕ)
    (h1 : 1 ≤ s1) (h12 : s1 ≤ s2) (h2 : s2 ≤ 100)
    (hv : (analyzeMessage s1 (.ok r)).violation = true) :
    (analyzeMessage s2 (.ok r)).violation = true := by
  simp only [analyzeMessage, decide_eq_true_eq] at hv ⊢
  have hth : sensitivityThreshold s2 ≤ sensitivityThreshold s1 := by
    have hc : (s1 : ℚ) ≤ (s2 : ℚ) := by exact_mod_cast h12
    simp only [sensitivityThreshold]
    linarith
  linarith

/-- Witness for C7: `(10,20,5)` violates at sensitivity 80 (composite 27.5
against threshold 21) and therefore also at sensitivity 90. -/
theorem sensitivity_monotone_witness :
    (analyzeMessage 80 (.ok respW)).violation = true
  ∧ (analyzeMessage 90 (.ok respW)).violation = true := by
  have hv : (analyzeMessage 80 (.ok respW)).violation = true := by
    simp only [analyzeMessage, respW, decide_eq_true_eq]
    norm_num [calculateViolationScore, sensitivityThreshold, min_def, max_def]
  exact ⟨hv, sensitivity_monotone respW 80 90 (by norm_num) (by norm_num) (by norm_num) hv⟩

/-! ## C2 — `violation_score` is recomputed (corrected) -/

/-- Counterexample to C2 as stated: on the ban-word path the pipeline's result
carries the hardcoded `violation_score = 90`, which is NOT the Violation
Scorer's recomputation from its own sub-scores — the scorer maps
`(90, 40, 70)` to `100`. -/
theorem ban_word_score_not_recomputed :
    (chooseViolation envW dmCheap "Buy CHEAP stuff").1 = banWordViolation
  ∧ banWordViolation.violation_score ≠
      calculateViolationScore banWordViolation.spam banWordViolation.toxic
        banWordViolation.danger := by
  constructor
  · have ht : checkBanWords dmCheap.settings.ban_words "Buy CHEAP stuff" = true := by decide
    simp [chooseViolation, ht]
  · show (90 : ℚ) ≠ calculateViolationScore 90 40 70
    norm_num [calculateViolationScore, min_def, max_def]

/-- C2 amended: on the classifier path the invariant holds — any
classifier-supplied `violation_score`/`violation` is discarded,
`violation_score` is recomputed from the sub-scores and `violation` from the
recomputed score, and the failure default `(0,0,0,0)` is also a fixed point of
the recomputation.  On the ban-word path, however, the synthesized result
carries the fixed `violation_score = 90`, not the scorer's recomputation. -/
theorem violation_score_recomputed (s : ℕ) (r : ClassifierResponse) :
    (analyzeMessage s (.ok r)).violation_score
        = calculateViolationScore r.spam r.toxic r.danger
  ∧ (analyzeMessage s (.ok r)).violation
        = decide (calculateViolationScore r.spam r.toxic r.danger ≥ sensitivityThreshold s)
  ∧ (∀ vs v vs' v',
      analyzeMessage s (.ok { r with violation_score := vs, violation := v })
        = analyzeMessage s (.ok { r with violation_score := vs', violation := v' }))
  ∧ (∀ e : String,
      (analyzeMessage s (.error e)).violation_score
        = calculateViolationScore (analyzeMessage s (.error e)).spam
            (analyzeMessage s (.error e)).toxic (analyzeMessage s (.error e)).danger)
  ∧ banWordViolation.violation_score = 90 := by
  refine ⟨rfl, rfl, fun vs v vs' v' => rfl, fun e => ?_, rfl⟩
  show (0 : ℚ) = calculateViolationScore 0 0 0
  norm_num [calculateViolationScore, min_def, max_def]

/-! ## C8 — the Rule Filter and the ban-word fast path (corrected) -/

/-- The function `infixOf` really is the contiguous-substring test. -/
theorem infixOf_correct (needle hay : List Char) :
    infixOf needle hay = true ↔ needle <:+: hay := by
  induction hay with
  | nil =>
    simp [infixOf, List.isEmpty_iff, List.infix_nil]
  | cons c rest ih =>
    simp [infixOf, Bool.or_eq_true, ih, List.infix_cons_iff,
      List.isPrefixOf_iff_prefix]

/-- Counterexample to C8 as stated: the filter is not case-insensitive in the
stored word.  With ban word `"CHEAP"` and text `"cheap"` the case-insensitive
substring relation holds (lower-casing both sides matches), yet
`_check_ban_words` does not trigger, because only the text is lower-cased. -/
theorem check_ban_words_not_case_insensitive :
    checkBanWords ["CHEAP"] "cheap" = false
  ∧ specCheckBanWordsCI ["CHEAP"] "cheap" = true := by
  constructor
  · decide
  · decide

/-- C8 amended: the Rule Filter triggers iff some stored ban word occurs
verbatim as a substring of the lower-cased text (so the match is
case-insensitive in the text but not in the stored word; when every stored
word is lower-case — which the insertion path guarantees — this coincides
with the fully case-insensitive substring test, and in particular
`check("Buy CHEAP stuff", ["cheap"])` is true); and whenever it triggers, the
orchestrator uses the fixed synthesized result
`spam=90, toxic=40, danger=70, violation_score=90, violation=true` with the
banned-word reason, making no classifier call and no Violation Scorer call. -/
theorem ban_word_fast_path (banWords : List String) (text : String)
    (env : Env) (dm : DataManager)
    (htrig : checkBanWords dm.settings.ban_words text = true) :
    chooseViolation env dm text = (banWordViolation, [])
  ∧ banWordViolation =
      { spam := 90, toxic := 40, danger := 70, violation_score := 90,
        violation := true, reason := "Запрещенное слово" }
  ∧ (checkBanWords banWords text = true
      ↔ ∃ w ∈ banWords, w.toList <:+: lowerChars text)
  ∧ ((∀ w ∈ banWords, w.toList.map Char.toLower = w.toList) →
      checkBanWords banWords text = specCheckBanWordsCI banWords text) := by
  refine ⟨by simp [chooseViolation, htrig], rfl, ?_, ?_⟩
  · simp only [checkBanWords, List.any_eq_true, infixOf_correct]
  · intro hlow
    simp only [checkBanWords, specCheckBanWordsCI]
    induction banWords with
    | nil => rfl
    | cons w rest ih =>
      have hw : w.toList.map Char.toLower = w.toList := hlow w (by simp)
      simp only [List.any_cons, hw]
      rw [ih (fun x hx => hlow x (by simp [hx]))]

/-- Witness for C8 at the spec's example: ban word `"cheap"`, text
`"Buy CHEAP stuff"`. -/
theorem ban_word_fast_path_witness :
    checkBanWords dmCheap.settings.ban_words "Buy CHEAP stuff" = true
  ∧ chooseViolation envW dmCheap "Buy CHEAP stuff" = (banWordViolation, []) := by
  have ht : checkBanWords dmCheap.settings.ban_words "Buy CHEAP stuff" = true := by decide
  exact ⟨ht, (ban_word_fast_path ["cheap"] "Buy CHEAP stuff" envW dmCheap ht).1⟩

/-! ## Structural lemmas about the enforcement steps -/

theorem deleteMsg_settings (env : Env) (dm : DataManager) (c : ℤ) (m : ℕ) :
    (deleteViolationMessage env dm c m).1.settings = dm.settings := by
  unfold deleteViolationMessage; split <;> rfl

theorem deleteMsg_users (env : Env) (dm : DataManager) (c : ℤ) (m : ℕ) :
    (deleteViolationMessage env dm c m).1.users = dm.users := by
  unfold deleteViolationMessage; split <;> rfl

theorem deleteMsg_vf (env : Env) (dm : DataManager) (c : ℤ) (m : ℕ) :
    (deleteViolationMessage env dm c m).1.stats.violations_found
      = dm.stats.violations_found := by
  unfold deleteViolationMessage; split <;> rfl

theorem deleteMsg_bu (env : Env) (dm : DataManager) (c : ℤ) (m : ℕ) :
    (deleteViolationMessage env dm c m).1.stats.banned_users
      = dm.stats.banned_users := by
  unfold deleteViolationMessage; split <;> rfl

theorem banUser_users (env : Env) (dm : DataManager) (c : ℤ) (u : TgUser) :
    (banUser env dm c u).1.users = dm.users := by
  unfold banUser; split <;> rfl

theorem banUser_vf (env : Env) (dm : DataManager) (c : ℤ) (u : TgUser) :
    (banUser env dm c u).1.stats.violations_found = dm.stats.violations_found := by
  unfold banUser; split <;> rfl

theorem banUser_bu_le (env : Env) (dm : DataManager) (c : ℤ) (u : TgUser) :
    (banUser env dm c u).1.stats.banned_users ≤ dm.stats.banned_users + 1 := by
  unfold banUser; split <;> simp

theorem banUser_mem (env : Env) (dm : DataManager) (c : ℤ) (u : TgUser) :
    Effect.banChatMember c u.id ∈ (banUser env dm c u).2.1 := by
  unfold banUser; split <;> simp

theorem banUser_dm_unchanged (env : Env) (dm : DataManager) (c : ℤ) (u : TgUser) :
    (banUser env dm c u).1.stats.deleted_messages = dm.stats.deleted_messages := by
  unfold banUser; split <;> rfl

theorem condDelete_settings (b : Bool) (env : Env) (dm : DataManager) (c : ℤ) (m : ℕ) :
    (if b then deleteViolationMessage env dm c m else (dm, [], false)).1.settings
      = dm.settings := by
  cases b <;> simp [deleteMsg_settings]

theorem condDelete_users (b : Bool) (env : Env) (dm : DataManager) (c : ℤ) (m : ℕ) :
    (if b then deleteViolationMessage env dm c m else (dm, [], false)).1.users
      = dm.users := by
  cases b <;> simp [deleteMsg_users]

theorem condDelete_vf (b : Bool) (env : Env) (dm : DataManager) (c : ℤ) (m : ℕ) :
    (if b then deleteViolationMessage env dm c m
      else (dm, [], false)).1.stats.violations_found
      = dm.stats.violations_found := by
  cases b <;> simp [deleteMsg_vf]

theorem condDelete_bu (b : Bool) (env : Env) (dm : DataManager) (c : ℤ) (m : ℕ) :
    (if b then deleteViolationMessage env dm c m
      else (dm, [], false)).1.stats.banned_users
      = dm.stats.banned_users := by
  cases b <;> simp [deleteMsg_bu]

theorem condDelete_raised (b : Bool) (env : Env) (dm : DataManager) (c : ℤ) (m : ℕ) :
    (if b then deleteViolationMessage env dm c m else (dm, [], false)).2.2
      = (b && !env.deleteOk && !env.editOk) := by
  cases b
  · simp
  · by_cases hd : env.deleteOk = true <;> simp [deleteViolationMessage, hd]

theorem ban_not_in_condDelete (b : Bool) (env : Env) (dm : DataManager)
    (c : ℤ) (m : ℕ) (c' : ℤ) (uid : ℕ) :
    Effect.banChatMember c' uid
      ∉ (if b then deleteViolationMessage env dm c m else (dm, [], false)).2.1 := by
  cases b
  · simp
  · by_cases hd : env.deleteOk = true <;> simp [deleteViolationMessage, hd]

/-! ## C4 — the enforcement cycle on a violation (corrected) -/

/-- Counterexample to C4 as stated: with `auto_delete` on, the delete call
failing, and the deletion-failed annotation edit also failing (an external
call with no `try` of its own, handlers.py line 252), the exception propagates
out of `_process_violation` before the ban check, so no ban is attempted even
though the post-increment warning count (3) reaches `warn_before_ban` (3). -/
theorem ban_check_skipped_on_edit_failure :
    dmB.settings.auto_delete = true
  ∧ recB.warnings + 1 ≥ dmB.settings.warn_before_ban
  ∧ Effect.banChatMember 5 userW.id
      ∉ (processViolation envEditFail dmB userW 5 11 banWordViolation).2.1 := by
  refine ⟨rfl, by decide, by decide⟩

/-- C4 amended: handling a violation for a user with `w` prior warnings
increments `violations_found` by exactly one, sets the user's warnings to
`w + 1`, and sends one warning notification — as a reply to the offending
message — carrying the reason, the composite score, the three sub-scores and
the `(w+1)/warn_before_ban` progress indicator; provided the delete step does
not itself raise (auto-delete off, or the deletion succeeds, or the
deletion-failed annotation edit succeeds), a ban is attempted exactly when the
post-increment count `w + 1` reaches `warn_before_ban`. -/
theorem enforcement_on_violation (env : Env) (dm : DataManager) (user : TgUser)
    (chat_id : ℤ) (message_id : ℕ) (v : ViolationResult) (u : UserRecord)
    (hu : dm.users.lookup (toString user.id) = some u)
    (hsend : env.sendOk = true)
    (hdel : dm.settings.auto_delete = false ∨ env.deleteOk = true ∨ env.editOk = true) :
    (processViolation env dm user chat_id message_id v).1.stats.violations_found
        = dm.stats.violations_found + 1
  ∧ (processViolation env dm user chat_id message_id v).1.users.lookup (toString user.id)
        = some { u with warnings := u.warnings + 1 }
  ∧ (processViolation env dm user chat_id message_id v).2.1.head?
        = some (Effect.sendWarning chat_id
            { reason := v.reason, violation_score := v.violation_score,
              spam := v.spam, toxic := v.toxic, danger := v.danger,
              warn_count := u.warnings + 1,
              warn_before_ban := dm.settings.warn_before_ban } message_id)
  ∧ ((Effect.banChatMember chat_id user.id
        ∈ (processViolation env dm user chat_id message_id v).2.1)
      ↔ u.warnings + 1 ≥ dm.settings.warn_before_ban) := by
  have hlook : (updateUser dm.users (toString user.id)
      (fun r => { r with warnings := r.warnings + 1 })).lookup (toString user.id)
      = some { u with warnings := u.warnings + 1 } := by
    rw [lookup_updateUser, hu]; rfl
  have hfalse : (dm.settings.auto_delete && !env.deleteOk && !env.editOk) = false := by
    rcases hdel with h | h | h <;> simp [h]
  simp only [processViolation, hsend, if_true, hlook, Option.map_some', Option.getD_some,
    condDelete_settings, condDelete_raised, hfalse, Bool.false_eq_true, if_false]
  by_cases hge : u.warnings + 1 ≥ dm.settings.warn_before_ban
  · simp only [if_pos hge]
    refine ⟨?_, ?_, rfl, ?_⟩
    · rw [banUser_vf, condDelete_vf]
    · rw [banUser_users, condDelete_users, hlook]
    · simp [List.mem_cons, List.mem_append, banUser_mem, hge,
        ban_not_in_condDelete]
  · simp only [if_neg hge]
    refine ⟨?_, ?_, rfl, ?_⟩
    · rw [condDelete_vf]
    · rw [condDelete_users, hlook]
    · have hnot := ban_not_in_condDelete dm.settings.auto_delete env
        { dm with
          stats := { dm.stats with violations_found := dm.stats.violations_found + 1 },
          users := updateUser dm.users (toString user.id)
            (fun r => { r with warnings := r.warnings + 1 }) }
        chat_id message_id chat_id user.id
      simp [List.mem_cons, hnot, hge]

/-- Witness for C4: `userW` with one prior warning and `warn_before_ban = 3`;
the warning counter reaches 2 and no ban is attempted. -/
theorem enforcement_on_violation_witness :
    dmW.users.lookup (toString userW.id) = some recW
  ∧ (processViolation envW dmW userW 5 11 banWordViolation).1.stats.violations_found
      = dmW.stats.violations_found + 1 := by
  have h := enforcement_on_violation envW dmW userW 5 11 banWordViolation recW
    (by decide) rfl (Or.inr (Or.inl rfl))
  exact ⟨by decide, h.1⟩

/-! ## C5 — delete failures are swallowed (corrected) -/

theorem deleteMsg_fail (env : Env) (dm : DataManager) (c : ℤ) (m : ℕ)
    (h : env.deleteOk = false) (he : env.editOk = true) :
    deleteViolationMessage env dm c m
      = (dm, [Effect.deleteMessage c m, Effect.editWarningDeleteFailed], false) := by
  simp [deleteViolationMessage, h, he]

theorem banUser_raised_ok (env : Env) (dm : DataManager) (c : ℤ) (u : TgUser)
    (h1 : env.banOk = true) (h2 : env.banAnnounceOk = true) :
    (banUser env dm c u).2.2 = false := by
  simp [banUser, h1, h2]

theorem banUser_raised_fail (env : Env) (dm : DataManager) (c : ℤ) (u : TgUser)
    (h : env.banOk = false ∨ env.banAnnounceOk = false) :
    (banUser env dm c u).2.2 = true := by
  rcases h with h | h
  · simp [banUser, h]
  · by_cases hb : env.banOk = true <;> simp [banUser, hb, h]

/-- Counterexample to C5 as stated: the delete failure is not always
swallowed.  With `auto_delete` on, the delete call failing, and the
deletion-failed annotation edit call also raising (handlers.py line 252 has no
inner `try`), the exception propagates out of the enforcement cycle — here
with the warning count (2) still below `warn_before_ban` (3), so the raise
cannot come from the ban step, which is skipped. -/
theorem delete_edit_failure_raises :
    dmW.settings.auto_delete = true
  ∧ envEditFail.deleteOk = false
  ∧ recW.warnings + 1 < dmW.settings.warn_before_ban
  ∧ (processViolation envEditFail dmW userW 5 11 banWordViolation).2.2 = true := by
  refine ⟨rfl, rfl, by decide, by decide⟩

/-- C5 amended: when `auto_delete` is on, the delete call fails, and the
deletion-failed annotation edit succeeds, the delete failure is swallowed at
the delete step: `deleted_messages` is unchanged, the visible deletion-failed
annotation is appended to the already-sent warning, the ban check still runs
in the same cycle (a ban is attempted exactly when the post-increment warning
count reaches the limit), and nothing is raised unless the ban step itself
raises; if the annotation edit itself raises, the exception propagates
instead. -/
theorem delete_failure_swallowed (env : Env) (dm : DataManager) (user : TgUser)
    (chat_id : ℤ) (message_id : ℕ) (v : ViolationResult) (u : UserRecord)
    (hu : dm.users.lookup (toString user.id) = some u)
    (hsend : env.sendOk = true)
    (hauto : dm.settings.auto_delete = true)
    (hdel : env.deleteOk = false)
    (heditOk : env.editOk = true) :
    (processViolation env dm user chat_id message_id v).1.stats.deleted_messages
        = dm.stats.deleted_messages
  ∧ Effect.editWarningDeleteFailed ∈ (processViolation env dm user chat_id message_id v).2.1
  ∧ ((Effect.banChatMember chat_id user.id
        ∈ (processViolation env dm user chat_id message_id v).2.1)
      ↔ u.warnings + 1 ≥ dm.settings.warn_before_ban)
  ∧ (u.warnings + 1 < dm.settings.warn_before_ban →
      (processViolation env dm user chat_id message_id v).2.2 = false)
  ∧ (env.banOk = true → env.banAnnounceOk = true →
      (processViolation env dm user chat_id message_id v).2.2 = false) := by
  have hlook : (updateUser dm.users (toString user.id)
      (fun r => { r with warnings := r.warnings + 1 })).lookup (toString user.id)
      = some { u with warnings := u.warnings + 1 } := by
    rw [lookup_updateUser, hu]; rfl
  simp only [processViolation, hsend, if_true, hlook, Option.map_some', Option.getD_some,
    condDelete_settings, hauto, deleteMsg_fail env _ chat_id message_id hdel heditOk,
    Bool.false_eq_true, if_false]
  by_cases hge : u.warnings + 1 ≥ dm.settings.warn_before_ban
  · simp only [if_pos hge]
    refine ⟨?_, by simp, ?_, ?_, ?_⟩
    · rw [banUser_dm_unchanged]
    · simp [List.mem_cons, List.mem_append, banUser_mem, hge]
    · intro hlt; omega
    · intro h1 h2
      exact banUser_raised_ok env _ chat_id user h1 h2
  · simp only [if_neg hge]
    refine ⟨by simp, by simp, ?_, by simp, by simp⟩
    simp [List.mem_cons, hge]

/-- Witness for C5: delete fails for `userW` (one prior warning, threshold 3):
`deleted_messages` stays, the annotation is appended. -/
theorem delete_failure_swallowed_witness :
    envDelFail.deleteOk = false
  ∧ (processViolation envDelFail dmW userW 5 11 banWordViolation).1.stats.deleted_messages
      = dmW.stats.deleted_messages
  ∧ Effect.editWarningDeleteFailed
      ∈ (processViolation envDelFail dmW userW 5 11 banWordViolation).2.1 := by
  have h := delete_failure_swallowed envDelFail dmW userW 5 11 banWordViolation recW
    (by decide) rfl rfl rfl rfl
  exact ⟨rfl, h.1, h.2.1⟩

/-! ## C6 — ban failures are re-raised and surface at the top level -/

/-- C6: when the ban step fails (the ban call itself or the ban announcement
raises), the exception is re-raised out of the enforcement cycle — unlike a
delete failure — and the top-level message handler catches it, answering with
the generic user-visible failure notice instead of crashing. -/
theorem ban_failure_raises (env : Env) (dm : DataManager) (user : TgUser)
    (chat_id : ℤ) (message_id : ℕ) (v : ViolationResult) (u : UserRecord)
    (hu : dm.users.lookup (toString user.id) = some u)
    (hsend : env.sendOk = true)
    (hge : u.warnings + 1 ≥ dm.settings.warn_before_ban)
    (hfail : env.banOk = false ∨ env.banAnnounceOk = false) :
    (processViolation env dm user chat_id message_id v).2.2 = true
  ∧ (∀ (env' : Env) (dm' : DataManager) (upd : TgUpdate),
      (handleMessageBody env' dm' upd).2.2 = true → upd.message.isSome = true →
      handleMessage env' dm' upd
        = ((handleMessageBody env' dm' upd).1,
           (handleMessageBody env' dm' upd).2.1 ++ [Effect.replyError])) := by
  constructor
  · have hlook : (updateUser dm.users (toString user.id)
        (fun r => { r with warnings := r.warnings + 1 })).lookup (toString user.id)
        = some { u with warnings := u.warnings + 1 } := by
      rw [lookup_updateUser, hu]; rfl
    simp only [processViolation, hsend, if_true, hlook, Option.map_some', Option.getD_some,
      condDelete_settings, condDelete_raised]
    cases hx : (dm.settings.auto_delete && !env.deleteOk && !env.editOk)
    · simp only [Bool.false_eq_true, if_false, if_pos hge]
      exact banUser_raised_fail env _ chat_id user hfail
    · simp
  · intro env' dm' upd hr hs
    simp [handleMessage, hr, hs]

/-- Witness for C6: `userW` at two prior warnings (threshold 3) and a failing
ban call: the enforcement cycle raises. -/
theorem ban_failure_raises_witness :
    envBanFail.banOk = false
  ∧ (processViolation envBanFail dmB userW 5 11 banWordViolation).2.2 = true := by
  have h := ban_failure_raises envBanFail dmB userW 5 11 banWordViolation recB
    (by decide) rfl (by decide) (Or.inl rfl)
  exact ⟨rfl, h.1⟩

/-! ## C9 — `violations_found >= banned_users` in every reachable state -/

theorem processViolation_vf_succ (env : Env) (dm : DataManager) (user : TgUser)
    (c : ℤ) (m : ℕ) (v : ViolationResult) :
    (processViolation env dm user c m v).1.stats.violations_found
      = dm.stats.violations_found + 1 := by
  unfold processViolation
  dsimp only
  cases hs : env.sendOk
  · simp
  · cases ha : dm.settings.auto_delete
    · simp only [eq_self_iff_true, if_true, Bool.false_eq_true, if_false]
      split
      · rw [banUser_vf]
      · rfl
    · simp only [eq_self_iff_true, if_true]
      split
      · rw [deleteMsg_vf]
      · split
        · rw [banUser_vf, deleteMsg_vf]
        · rw [deleteMsg_vf]

theorem processViolation_bu_le (env : Env) (dm : DataManager) (user : TgUser)
    (c : ℤ) (m : ℕ) (v : ViolationResult) :
    (processViolation env dm user c m v).1.stats.banned_users
      ≤ dm.stats.banned_users + 1 := by
  unfold processViolation
  dsimp only
  cases hs : env.sendOk
  · simp
  · cases ha : dm.settings.auto_delete
    · simp only [eq_self_iff_true, if_true, Bool.false_eq_true, if_false]
      split
      · exact (banUser_bu_le _ _ _ _).trans le_rfl
      · exact Nat.le_succ _
    · simp only [eq_self_iff_true, if_true]
      split
      · rw [deleteMsg_bu]
        exact Nat.le_succ _
      · split
        · refine (banUser_bu_le _ _ _ _).trans ?_
          rw [deleteMsg_bu]
        · rw [deleteMsg_bu]
          exact Nat.le_succ _

theorem dispatch_preserves (env : Env) (dmX : DataManager) (user : TgUser)
    (cid : ℤ) (mid : ℕ) (viol : ViolationResult)
    (h : dmX.stats.banned_users ≤ dmX.stats.violations_found) :
    (processViolation env dmX user cid mid viol).1.stats.banned_users
      ≤ (processViolation env dmX user cid mid viol).1.stats.violations_found := by
  have h1 := processViolation_vf_succ env dmX user cid mid viol
  have h2 := processViolation_bu_le env dmX user cid mid viol
  omega

theorem handleMessage_fst (env : Env) (dm : DataManager) (upd : TgUpdate) :
    (handleMessage env dm upd).1 = (handleMessageBody env dm upd).1 := by
  unfold handleMessage
  cases h : (handleMessageBody env dm upd).2.2 <;> simp [h]

theorem registerMessage_bu (dm : DataManager) (user : TgUser) :
    (registerMessage dm user).stats.banned_users = dm.stats.banned_users := by
  unfold registerMessage
  dsimp only
  split <;> rfl

theorem registerMessage_vf (dm : DataManager) (user : TgUser) :
    (registerMessage dm user).stats.violations_found = dm.stats.violations_found := by
  unfold registerMessage
  dsimp only
  split <;> rfl

theorem processFound_preserves (env : Env) (dm : DataManager) (user : TgUser)
    (cid : ℤ) (mid : ℕ) (chosen : ViolationResult × List Effect)
    (h : dm.stats.banned_users ≤ dm.stats.violations_found) :
    (processFound env dm user cid mid chosen).1.stats.banned_users
      ≤ (processFound env dm user cid mid chosen).1.stats.violations_found := by
  unfold processFound
  split
  · split
    · exact dispatch_preserves env dm user cid mid chosen.1 h
    · exact dispatch_preserves env dm user cid mid chosen.1 h
  · exact h

theorem body_preserves (env : Env) (dm : DataManager) (upd : TgUpdate)
    (h : dm.stats.banned_users ≤ dm.stats.violations_found) :
    (handleMessageBody env dm upd).1.stats.banned_users
      ≤ (handleMessageBody env dm upd).1.stats.violations_found := by
  cases hm : upd.message with
  | none => simpa [handleMessageBody, hm] using h
  | some msg =>
    cases ht : msg.text with
    | none => simpa [handleMessageBody, hm, ht] using h
    | some text =>
      by_cases he : text = ""
      · simpa [handleMessageBody, hm, ht, he] using h
      · cases hbot : msg.from_user.is_bot
        · simp only [handleMessageBody, hm, ht, he, hbot, if_false, Bool.false_eq_true,
            if_neg, ite_false]
          apply processFound_preserves
          rw [registerMessage_bu, registerMessage_vf]
          exact h
        · simpa [handleMessageBody, hm, ht, he, hbot] using h

theorem handleMessage_preserves (env : Env) (dm : DataManager) (upd : TgUpdate)
    (h : dm.stats.banned_users ≤ dm.stats.violations_found) :
    (handleMessage env dm upd).1.stats.banned_users
      ≤ (handleMessage env dm upd).1.stats.violations_found := by
  rw [handleMessage_fst]
  exact body_preserves env dm upd h

/-- C9: in every state reachable from the default zeroed statistics by
processing any sequence of incoming messages (with any outcomes of the
external calls), `violations_found ≥ banned_users`: `banned_users` is only
incremented inside a violation-processing step that already incremented
`violations_found`. -/
theorem banned_le_violations_reachable (msgs : List Incoming) :
    (runMessages defaultData msgs).stats.banned_users
      ≤ (runMessages defaultData msgs).stats.violations_found := by
  have main : ∀ (l : List Incoming) (dm : DataManager),
      dm.stats.banned_users ≤ dm.stats.violations_found →
      (runMessages dm l).stats.banned_users
        ≤ (runMessages dm l).stats.violations_found := by
    intro l
    induction l with
    | nil => intro dm h; exact h
    | cons i rest ih =>
      intro dm h
      exact ih _ (handleMessage_preserves i.env dm i.upd h)
  exact main msgs defaultData (by decide)

/-! ## C10 — message-less / text-less updates are a no-op -/

/-- C10: an update with no message object, or whose message has no text (or
empty text, which the Python truthiness guard treats the same way), is handled
with no observable state change: the data manager is returned untouched and no
external call at all is made — no classifier call, no Telegram call, and no
`save_data`. -/
theorem empty_update_noop (env : Env) (dm : DataManager) (upd : TgUpdate)
    (h : upd.message = none
      ∨ ∃ m, upd.message = some m ∧ (m.text = none ∨ m.text = some "")) :
    handleMessage env dm upd = (dm, []) := by
  rcases h with h | ⟨m, hm, ht | ht⟩
  · simp [handleMessage, handleMessageBody, h]
  · simp [handleMessage, handleMessageBody, hm, ht]
  · simp [handleMessage, handleMessageBody, hm, ht]

/-- Witness for C10 on the update with no message object. -/
theorem empty_update_noop_witness :
    (TgUpdate.mk none).message = none
  ∧ handleMessage envW defaultData (TgUpdate.mk none) = (defaultData, []) :=
  ⟨rfl, empty_update_noop envW defaultData (TgUpdate.mk none) (Or.inl rfl)⟩

end ToxiGuard
